import Mathlib

/-!
Verification of the VRM action server core (`src/main.py`).

The Python module is embedded shallowly: Python floats become `ℚ`
(the numeric literals of the source are exact decimals), Python lists
become `List`, Python dictionaries with a fixed key set become functions
defined by an `if`-chain, `dict.get(k, default)` becomes an `Option`
lookup with `getD`, and a Python function that can `raise` becomes a
function into `Except`.  Pydantic field validation that can reject a
value at model construction (the `ge=0, le=1` bound on
`ExpressionData.value`) is embedded as an explicit range check.
-/

/-- Errors surfaced by the embedded operations: `missingCapabilities` is the
`ValueError` raised by `generate_vrm_action` when `model_capabilities` is
`None`; `validationError` is a pydantic validation failure on
`ExpressionData.value`. -/
inductive GenError where
  | missingCapabilities
  | validationError
deriving DecidableEq

/-- `VRMCapabilities` (src/main.py:12-18). -/
structure VRMCapabilities where
  expressions : List String
  bones : List String
  has_finger_bones : Bool
  has_toe_bones : Bool
  has_spring_bones : Bool
deriving DecidableEq

/-- `BoneTransform` (src/main.py:20-24). -/
structure BoneTransform where
  bone_name : String
  rotation : List ℚ
  position : Option (List ℚ) := none
deriving DecidableEq

/-- `ExpressionData` (src/main.py:26-29).  The pydantic bound
`0 ≤ value ≤ 1` is enforced where the structure is built. -/
structure ExpressionData where
  name : String
  value : ℚ
deriving DecidableEq

/-- `VRMAction` (src/main.py:31-37). -/
structure VRMAction where
  name : String
  duration : ℚ := 1
  expressions : List ExpressionData := []
  bone_transforms : List BoneTransform := []
  loop : Bool := false
deriving DecidableEq

/-- `ActionRequest` (src/main.py:39-44). -/
structure ActionRequest where
  action_type : String
  intensity : ℚ := 0.5
  duration : ℚ := 2.0
  model_capabilities : Option VRMCapabilities := none
deriving DecidableEq

/-- One bone entry of a template: the `bone_transforms` dictionaries of
`ACTION_TEMPLATES` (no template carries a `position` key, hence the
`none` default mirrors `bone_data.get("position")`). -/
structure TemplateBone where
  bone_name : String
  rotation : List ℚ
  position : Option (List ℚ) := none
deriving DecidableEq

/-- One action template: `expressions` holds `(name, value)` pairs. -/
structure ActionTemplate where
  expressions : List (String × ℚ) := []
  bone_transforms : List TemplateBone := []
deriving DecidableEq

/-- `ACTION_TEMPLATES` (src/main.py:47-85), as the lookup function
`ACTION_TEMPLATES.get` ranges over; `none` for a key not present. -/
def ACTION_TEMPLATES (action_type : String) : Option ActionTemplate :=
  if action_type = "wave_hello" then some
    { expressions := [("happy", 0.7)],
      bone_transforms := [
        { bone_name := "rightUpperArm", rotation := [0, 0, -1.57] },
        { bone_name := "rightLowerArm", rotation := [0, 0, -0.5] }] }
  else if action_type = "dance_basic" then some
    { expressions := [("happy", 0.8)],
      bone_transforms := [
        { bone_name := "leftUpperArm", rotation := [0, 0, 1.0] },
        { bone_name := "rightUpperArm", rotation := [0, 0, -1.0] },
        { bone_name := "spine", rotation := [0, 0.3, 0] }] }
  else if action_type = "point_finger" then some
    { bone_transforms := [
        { bone_name := "rightUpperArm", rotation := [0, -0.5, -1.2] },
        { bone_name := "rightLowerArm", rotation := [0, 0, -0.3] }] }
  else if action_type = "bow" then some
    { expressions := [("neutral", 1.0)],
      bone_transforms := [
        { bone_name := "spine", rotation := [0.8, 0, 0] },
        { bone_name := "neck", rotation := [0.3, 0, 0] }] }
  else if action_type = "clap" then some
    { expressions := [("happy", 0.6)],
      bone_transforms := [
        { bone_name := "rightUpperArm", rotation := [0, -0.8, -1.0] },
        { bone_name := "leftUpperArm", rotation := [0, 0.8, 1.0] },
        { bone_name := "rightLowerArm", rotation := [0, 0, -1.2] },
        { bone_name := "leftLowerArm", rotation := [0, 0, 1.2] }] }
  else none

/-- `STANDARD_EXPRESSIONS` (src/main.py:87-91). -/
def STANDARD_EXPRESSIONS : List String :=
  ["neutral", "happy", "angry", "sad", "relaxed", "surprised",
   "blink", "blink_l", "blink_r", "look_up", "look_down",
   "look_left", "look_right", "a", "i", "u", "e", "o"]

/-- `STANDARD_BONES` (src/main.py:93-99). -/
def STANDARD_BONES : List String :=
  ["hips", "spine", "chest", "neck", "head",
   "leftShoulder", "leftUpperArm", "leftLowerArm", "leftHand",
   "rightShoulder", "rightUpperArm", "rightLowerArm", "rightHand",
   "leftUpperLeg", "leftLowerLeg", "leftFoot",
   "rightUpperLeg", "rightLowerLeg", "rightFoot"]

/-- ASCII lower-casing, the effect of Python's `str.lower()` on the
ASCII-only identifiers this module handles. -/
def toLowerStr (s : String) : String :=
  String.mk (s.data.map Char.toLower)

/-- Does `s` start with `pat`?  (Support for the substring test.) -/
def beginsWith : List Char → List Char → Bool
  | [], _ => true
  | _ :: _, [] => false
  | p :: ps, c :: cs => p == c && beginsWith ps cs

/-- Does `pat` occur as a contiguous substring of `s`?  (Python's
`pat in s` on strings.) -/
def hasSubstrAux (pat : List Char) : List Char → Bool
  | [] => pat.isEmpty
  | c :: rest => beginsWith pat (c :: rest) || hasSubstrAux pat rest

/-- `strContains s pat` is Python's `pat in s` for strings. -/
def strContains (s pat : String) : Bool :=
  hasSubstrAux pat.data s.data

/-- `get_model_capabilities` (src/main.py:101-118); the two optional
parameters default to the standard sets when `None`. -/
def get_model_capabilities (expressions : Option (List String))
    (bones : Option (List String)) : VRMCapabilities :=
  let expressions := expressions.getD STANDARD_EXPRESSIONS
  let bones := bones.getD STANDARD_BONES
  { expressions := expressions,
    bones := bones,
    has_finger_bones := bones.contains "leftThumb1" || bones.contains "rightThumb1",
    has_toe_bones := bones.contains "leftToes" || bones.contains "rightToes",
    has_spring_bones := true }

/-- The `fallback_map` dictionary of `_map_expression_with_fallback`
(src/main.py:230-241); `fallback_map.get(target_expr, [])`. -/
def fallback_map (target_expr : String) : List String :=
  if target_expr = "happy" then ["joy", "smile", "pleased", "cheerful"]
  else if target_expr = "sad" then ["sorrow", "cry", "depressed", "down"]
  else if target_expr = "angry" then ["mad", "irritated", "upset", "furious"]
  else if target_expr = "surprised" then ["shock", "amazed", "wow", "astonished"]
  else if target_expr = "neutral" then ["default", "rest", "normal"]
  else if target_expr = "blink" then ["blink_both", "eye_close"]
  else if target_expr = "look_left" then ["eye_left", "gaze_left"]
  else if target_expr = "look_right" then ["eye_right", "gaze_right"]
  else if target_expr = "look_up" then ["eye_up", "gaze_up"]
  else if target_expr = "look_down" then ["eye_down", "gaze_down"]
  else []

/-- `_map_expression_with_fallback` (src/main.py:224-248). -/
def _map_expression_with_fallback (target_expr : String)
    (available_exprs : List String) : Option String :=
  if available_exprs.contains target_expr then some target_expr
  else (fallback_map target_expr).find? (fun fallback => available_exprs.contains fallback)

/-- The `bone_alternatives` dictionary of `_map_bone_with_alternatives`
(src/main.py:258-267); `bone_alternatives.get(target_bone, [])`. -/
def bone_alternatives (target_bone : String) : List String :=
  if target_bone = "rightUpperArm" then ["rightArm", "rightShoulder"]
  else if target_bone = "leftUpperArm" then ["leftArm", "leftShoulder"]
  else if target_bone = "rightLowerArm" then ["rightForearm", "rightElbow"]
  else if target_bone = "leftLowerArm" then ["leftForearm", "leftElbow"]
  else if target_bone = "spine" then ["chest", "upperChest", "torso"]
  else if target_bone = "neck" then ["head", "spine"]
  else if target_bone = "rightHand" then ["rightWrist"]
  else if target_bone = "leftHand" then ["leftWrist"]
  else []

/-- `_get_finger_bones` (src/main.py:283-295): nested loops over the five
digits and the three joint indices, keeping names present in
`available_bones`. -/
def _get_finger_bones (hand_bone : String) (available_bones : List String) : List String :=
  let side := if strContains (toLowerStr hand_bone) "right" then "right" else "left"
  ["Thumb", "Index", "Middle", "Ring", "Little"].flatMap (fun finger =>
    ([1, 2, 3] : List Nat).flatMap (fun i =>
      let bone_name := side ++ finger ++ toString i
      if available_bones.contains bone_name then [bone_name] else []))

/-- `_map_bone_with_alternatives` (src/main.py:250-281): exact match, else
first available alternative, then finger augmentation for hand bones. -/
def _map_bone_with_alternatives (target_bone : String) (available_bones : List String)
    (capabilities : VRMCapabilities) : List String :=
  let mapped_bones := if available_bones.contains target_bone then [target_bone] else []
  let mapped_bones :=
    if mapped_bones.isEmpty then
      match (bone_alternatives target_bone).find? (fun alt_bone => available_bones.contains alt_bone) with
      | some alt_bone => [alt_bone]
      | none => []
    else mapped_bones
  if (["rightHand", "leftHand"].contains target_bone) && capabilities.has_finger_bones then
    mapped_bones ++ _get_finger_bones target_bone available_bones
  else mapped_bones

/-- `_adapt_rotation_for_bone` (src/main.py:297-314): scale by intensity,
then clamp by bone category.  The `adapted[i] = ...` index assignments of
the neck/spine branches are written as a pattern match on the head of the
list (every rotation the module passes in has three components). -/
def _adapt_rotation_for_bone (base_rotation : List ℚ) (bone_name : String)
    (intensity : ℚ) : List ℚ :=
  let adapted := base_rotation.map (fun r => r * intensity)
  let lower := toLowerStr bone_name
  if strContains lower "finger" || strContains lower "thumb" then
    adapted.map (fun r => max (-0.5) (min 0.5 r))
  else if strContains lower "neck" then
    match adapted with
    | x :: y :: rest => max (-0.8) (min 0.8 x) :: max (-1.2) (min 1.2 y) :: rest
    | short => short
  else if strContains lower "spine" then
    match adapted with
    | x :: rest => max (-1.0) (min 1.0 x) :: rest
    | short => short
  else adapted

/-- `_generate_fallback_action` (src/main.py:316-353): keyword-driven
synthesis when no template exists. -/
def _generate_fallback_action (request : ActionRequest)
    (capabilities : VRMCapabilities) : List BoneTransform :=
  let action_type := toLowerStr request.action_type
  let intensity := request.intensity
  if strContains action_type "wave" || strContains action_type "hello" then
    if capabilities.bones.contains "rightUpperArm" then
      [{ bone_name := "rightUpperArm", rotation := [0, 0, -1.57 * intensity] }]
    else []
  else if strContains action_type "dance" || strContains action_type "move" then
    (if capabilities.bones.contains "spine" then
      [{ bone_name := "spine", rotation := [0, 0.3 * intensity, 0] }]
    else []) ++
    (["rightUpperArm", "leftUpperArm"].flatMap (fun arm =>
      if capabilities.bones.contains arm then
        let side_mult : ℚ := if strContains arm "right" then 1 else -1
        [{ bone_name := arm, rotation := [0, 0, side_mult * 1.0 * intensity] }]
      else []))
  else if strContains action_type "point" || strContains action_type "indicate" then
    if capabilities.bones.contains "rightUpperArm" then
      [{ bone_name := "rightUpperArm", rotation := [0, -0.5 * intensity, -1.2 * intensity] }]
    else []
  else []

/-- The expression loop of `generate_vrm_action` (src/main.py:137-142):
resolve each template expression, scale by intensity, and build
`ExpressionData`; the range check embeds the pydantic
`ge=0.0, le=1.0` bound on `ExpressionData.value`, whose violation raises
a validation error. -/
def _build_expressions : List (String × ℚ) → ℚ → List String →
    Except GenError (List ExpressionData)
  | [], _, _ => .ok []
  | (name, value) :: rest, intensity, available =>
    match _map_expression_with_fallback name available with
    | some mapped_expr =>
      let adjusted_value := value * intensity
      if 0 ≤ adjusted_value ∧ adjusted_value ≤ 1 then
        match _build_expressions rest intensity available with
        | .ok tail => .ok ({ name := mapped_expr, value := adjusted_value } :: tail)
        | .error e => .error e
      else .error .validationError
    | none => _build_expressions rest intensity available

/-- The bone loop of `generate_vrm_action` (src/main.py:144-159): resolve
each template bone to the actual bones, adapt each rotation, and append
the synthesized fallback transforms when no template exists (an absent
key yields the empty dictionary, the only falsy template). -/
def _assemble_bone_transforms (request : ActionRequest)
    (capabilities : VRMCapabilities) : List BoneTransform :=
  let templateOpt := ACTION_TEMPLATES request.action_type
  let template := templateOpt.getD {}
  let bone_transforms := template.bone_transforms.flatMap (fun bone_data =>
    (_map_bone_with_alternatives bone_data.bone_name capabilities.bones capabilities).map
      (fun bone_name =>
        { bone_name := bone_name,
          rotation := _adapt_rotation_for_bone bone_data.rotation bone_name request.intensity,
          position := bone_data.position }))
  if templateOpt.isNone then
    bone_transforms ++ _generate_fallback_action request capabilities
  else bone_transforms

/-- `generate_vrm_action` (src/main.py:120-167). -/
def generate_vrm_action (request : ActionRequest) : Except GenError VRMAction :=
  match request.model_capabilities with
  | none => .error .missingCapabilities
  | some capabilities =>
    match _build_expressions ((ACTION_TEMPLATES request.action_type).getD {}).expressions
        request.intensity capabilities.expressions with
    | .error e => .error e
    | .ok expressions =>
      .ok { name := request.action_type ++ "_" ++ toString request.intensity,
            duration := request.duration,
            expressions := expressions,
            bone_transforms := _assemble_bone_transforms request capabilities,
            loop := ["dance_basic", "idle_animation"].contains request.action_type }

/-- `list_available_actions` (src/main.py:169-172): the template keys in
insertion order. -/
def list_available_actions : List String :=
  ["wave_hello", "dance_basic", "point_finger", "bow", "clap"]

/-- `get_action_sequence` (src/main.py:206-221): each name is wrapped in
an `ActionRequest` with intensity `0.7` and the default duration `2.0`,
and a raised error aborts the whole loop. -/
def get_action_sequence (action_names : List String)
    (model_capabilities : Option VRMCapabilities) : Except GenError (List VRMAction) :=
  match action_names with
  | [] => .ok []
  | action_name :: rest =>
    match generate_vrm_action { action_type := action_name, intensity := 0.7,
                                model_capabilities := model_capabilities } with
    | .error e => .error e
    | .ok action =>
      match get_action_sequence rest model_capabilities with
      | .error e => .error e
      | .ok sequence => .ok (action :: sequence)

/-- The capability descriptor of the standard model:
`get_model_capabilities()` with both parameters omitted. -/
def standard_capabilities : VRMCapabilities := get_model_capabilities none none

/-- The request of the `wave_hello` test vector: intensity 1, duration 1,
standard capabilities. -/
def wave_request : ActionRequest :=
  { action_type := "wave_hello", intensity := 1, duration := 1,
    model_capabilities := some standard_capabilities }

/-- The action `generate_vrm_action` produces for `wave_request`. -/
def wave_action : VRMAction :=
  { name := "wave_hello_1", duration := 1,
    expressions := [{ name := "happy", value := 0.7 }],
    bone_transforms :=
      [{ bone_name := "rightUpperArm", rotation := [0, 0, -1.57], position := none },
       { bone_name := "rightLowerArm", rotation := [0, 0, -0.5], position := none }],
    loop := false }

/-- The request of the templateless test vector whose name holds the
keyword `dance`: intensity 0.5, duration 2, standard capabilities. -/
def dance_request : ActionRequest :=
  { action_type := "unknown_action_xyz_dance", intensity := 0.5, duration := 2,
    model_capabilities := some standard_capabilities }

/-- A descriptor of a model with finger bones, for the hand-resolution
test vectors. -/
def finger_capabilities : VRMCapabilities :=
  { expressions := [], bones := ["rightHand", "rightThumb1"],
    has_finger_bones := true, has_toe_bones := false, has_spring_bones := false }

/-- A request that carries no capability descriptor. -/
def no_caps_request : ActionRequest :=
  { action_type := "wave_hello", intensity := 0.5, duration := 2,
    model_capabilities := none }

/-- A `flatMap` whose body conditionally keeps a single element is a
`filter` over the mapped names. -/
theorem flatMap_if_singleton_eq_filter_map {α β : Type} (l : List α) (f : α → β) (p : β → Bool) :
    l.flatMap (fun x => if p (f x) then [f x] else []) = (l.map f).filter p := by
  induction l with
  | nil => rfl
  | cons hd tl ih =>
    cases hc : p (f hd) <;> simp [List.flatMap_cons, List.filter_cons, hc, ih]

/-- `filter` distributes into `flatMap`. -/
theorem filter_flatMap_comm {α β : Type} (l : List α) (g : α → List β) (p : β → Bool) :
    (l.flatMap g).filter p = l.flatMap (fun a => (g a).filter p) := by
  induction l with
  | nil => rfl
  | cons hd tl ih => simp [List.flatMap_cons, List.filter_append, ih]

/-- Every expression base value stored in `ACTION_TEMPLATES` lies in
`[0, 1]`. -/
theorem template_expression_values_in_range (action_type : String) (t : ActionTemplate)
    (h : ACTION_TEMPLATES action_type = some t) :
    ∀ p ∈ t.expressions, 0 ≤ p.2 ∧ p.2 ≤ 1 := by
  unfold ACTION_TEMPLATES at h
  split_ifs at h <;> (injection h with h; subst h; intro p hp; fin_cases hp <;> norm_num)

/-- The expression loop succeeds whenever the intensity and all base
values lie in `[0, 1]`. -/
theorem build_expressions_ok (entries : List (String × ℚ)) (intensity : ℚ)
    (available : List String) (h0 : 0 ≤ intensity) (h1 : intensity ≤ 1)
    (hv : ∀ p ∈ entries, 0 ≤ p.2 ∧ p.2 ≤ 1) :
    ∃ res, _build_expressions entries intensity available = .ok res := by
  induction entries with
  | nil => exact ⟨[], rfl⟩
  | cons hd tl ih =>
    obtain ⟨name, value⟩ := hd
    obtain ⟨res, hres⟩ := ih (fun p hp => hv p (List.mem_cons_of_mem _ hp))
    have hb := hv (name, value) (List.mem_cons_self _ _)
    cases hmap : _map_expression_with_fallback name available with
    | none =>
      refine ⟨res, ?_⟩
      simpa [_build_expressions, hmap] using hres
    | some mapped =>
      refine ⟨{ name := mapped, value := value * intensity } :: res, ?_⟩
      have hlo : 0 ≤ value * intensity := mul_nonneg hb.1 h0
      have hhi : value * intensity ≤ 1 := mul_le_one₀ hb.2 h0 h1
      simp [_build_expressions, hmap, hres, hlo, hhi]

/-- Every expression the expression loop emits carries a value in
`[0, 1]` (the embedded pydantic bound). -/
theorem build_expressions_values (entries : List (String × ℚ)) (intensity : ℚ)
    (available : List String) (res : List ExpressionData)
    (h : _build_expressions entries intensity available = .ok res) :
    ∀ e ∈ res, 0 ≤ e.value ∧ e.value ≤ 1 := by
  induction entries generalizing res with
  | nil =>
    simp only [_build_expressions] at h
    injection h with h
    subst h
    simp
  | cons hd tl ih =>
    obtain ⟨name, value⟩ := hd
    simp only [_build_expressions] at h
    split at h
    next mapped hmap =>
      split at h
      next hrange =>
        split at h
        next tail htail =>
          injection h with h
          subst h
          intro e he
          rcases List.mem_cons.mp he with rfl | he
          · exact hrange
          · exact ih _ htail e he
        next e htail => exact absurd h (by simp)
      next hrange => exact absurd h (by simp)
    next hmap => exact ih _ h

/-- `generate_vrm_action`, written as the record it returns once the
capability check and the expression loop have gone through. -/
theorem generate_eq_of_build (request : ActionRequest) (capabilities : VRMCapabilities)
    (hc : request.model_capabilities = some capabilities)
    (res : List ExpressionData)
    (hres : _build_expressions ((ACTION_TEMPLATES request.action_type).getD {}).expressions
      request.intensity capabilities.expressions = .ok res) :
    generate_vrm_action request =
      .ok { name := request.action_type ++ "_" ++ toString request.intensity,
            duration := request.duration,
            expressions := res,
            bone_transforms := _assemble_bone_transforms request capabilities,
            loop := ["dance_basic", "idle_animation"].contains request.action_type } := by
  simp only [generate_vrm_action, hc, hres]

/-- With a capability descriptor and an in-range intensity,
`generate_vrm_action` returns an action, of the request's duration and
with the loop flag of the fixed loopable set. -/
theorem generate_ok_of_capabilities (request : ActionRequest) (capabilities : VRMCapabilities)
    (hc : request.model_capabilities = some capabilities)
    (h0 : 0 ≤ request.intensity) (h1 : request.intensity ≤ 1) :
    ∃ action, generate_vrm_action request = .ok action ∧
      action.duration = request.duration ∧
      action.loop = ["dance_basic", "idle_animation"].contains request.action_type := by
  have hv : ∀ p ∈ ((ACTION_TEMPLATES request.action_type).getD {}).expressions,
      0 ≤ p.2 ∧ p.2 ≤ 1 := by
    cases ht : ACTION_TEMPLATES request.action_type with
    | none => simp
    | some t =>
      simpa [ht] using template_expression_values_in_range request.action_type t ht
  obtain ⟨res, hres⟩ := build_expressions_ok _ request.intensity capabilities.expressions h0 h1 hv
  exact ⟨_, generate_eq_of_build request capabilities hc res hres, rfl, rfl⟩

/-- Inversion: a successful `generate_vrm_action` call determines every
field of the returned action. -/
theorem generate_ok_inversion (request : ActionRequest) (action : VRMAction)
    (h : generate_vrm_action request = .ok action) :
    ∃ capabilities res, request.model_capabilities = some capabilities ∧
      _build_expressions ((ACTION_TEMPLATES request.action_type).getD {}).expressions
        request.intensity capabilities.expressions = .ok res ∧
      action.expressions = res ∧
      action.duration = request.duration ∧
      action.bone_transforms = _assemble_bone_transforms request capabilities ∧
      action.loop = ["dance_basic", "idle_animation"].contains request.action_type := by
  unfold generate_vrm_action at h
  split at h
  next => exact absurd h (by simp)
  next capabilities hc =>
    split at h
    next e hres => exact absurd h (by simp)
    next res hres =>
      injection h with h
      subst h
      exact ⟨capabilities, res, hc, hres, rfl, rfl, rfl, rfl⟩

/-- A bone name matching no clamp category is only scaled. -/
theorem adapt_no_category (base : List ℚ) (bone_name : String) (intensity : ℚ)
    (hf : (strContains (toLowerStr bone_name) "finger" || strContains (toLowerStr bone_name) "thumb") = false)
    (hn : strContains (toLowerStr bone_name) "neck" = false)
    (hs : strContains (toLowerStr bone_name) "spine" = false) :
    _adapt_rotation_for_bone base bone_name intensity = base.map (fun r => r * intensity) := by
  simp [_adapt_rotation_for_bone, hf, hn, hs]

/-- The expression loop of the `wave_hello` test vector. -/
theorem wave_build_expressions :
    _build_expressions ((ACTION_TEMPLATES wave_request.action_type).getD {}).expressions
      wave_request.intensity standard_capabilities.expressions =
    .ok [{ name := "happy", value := 0.7 }] := by
  show _build_expressions [("happy", 0.7)] 1 STANDARD_EXPRESSIONS = _
  have hmap : _map_expression_with_fallback "happy" STANDARD_EXPRESSIONS = some "happy" := by
    decide
  simp only [_build_expressions, hmap]
  norm_num

/-- The bone loop of the `wave_hello` test vector. -/
theorem wave_bone_transforms :
    _assemble_bone_transforms wave_request standard_capabilities =
      [{ bone_name := "rightUpperArm", rotation := [0, 0, -1.57], position := none },
       { bone_name := "rightLowerArm", rotation := [0, 0, -0.5], position := none }] := by
  have hb1 : _map_bone_with_alternatives "rightUpperArm" STANDARD_BONES standard_capabilities =
      ["rightUpperArm"] := by decide
  have hb2 : _map_bone_with_alternatives "rightLowerArm" STANDARD_BONES standard_capabilities =
      ["rightLowerArm"] := by decide
  have ha1 : _adapt_rotation_for_bone [0, 0, -1.57] "rightUpperArm" 1 = [0, 0, -1.57] := by
    rw [adapt_no_category _ _ _ (by decide) (by decide) (by decide)]
    norm_num
  have ha2 : _adapt_rotation_for_bone [0, 0, -0.5] "rightLowerArm" 1 = [0, 0, -0.5] := by
    rw [adapt_no_category _ _ _ (by decide) (by decide) (by decide)]
    norm_num
  have ht : ACTION_TEMPLATES wave_request.action_type = some
      { expressions := [("happy", 0.7)],
        bone_transforms := [
          { bone_name := "rightUpperArm", rotation := [0, 0, -1.57] },
          { bone_name := "rightLowerArm", rotation := [0, 0, -0.5] }] } := rfl
  have hcaps : standard_capabilities.bones = STANDARD_BONES := rfl
  have hint : wave_request.intensity = 1 := rfl
  simp only [_assemble_bone_transforms, ht, hcaps, hint, Option.getD_some, Option.isNone_some,
    List.flatMap_cons, List.flatMap_nil, List.map_cons, List.map_nil, hb1, hb2, ha1, ha2,
    Bool.false_eq_true, if_false, List.append_nil]
  rfl

/-- `generate_vrm_action` on the `wave_hello` test vector, in full. -/
theorem generate_wave_eq : generate_vrm_action wave_request = .ok wave_action := by
  rw [generate_eq_of_build wave_request standard_capabilities rfl _ wave_build_expressions,
    wave_bone_transforms]
  rfl

/-- C1: for the standard capability set, composing `wave_hello` at
intensity 1 and duration 1 returns exactly one expression entry
`("happy", 0.7)`, exactly the two bone transforms `rightUpperArm` with
rotation `[0, 0, -1.57]` followed by `rightLowerArm` with rotation
`[0, 0, -0.5]`, and `loop = false`. -/
theorem c1_compose_wave_hello :
    (generate_vrm_action wave_request).map
      (fun a => (a.expressions, a.bone_transforms, a.loop)) =
    .ok ([{ name := "happy", value := 0.7 }],
         [{ bone_name := "rightUpperArm", rotation := [0, 0, -1.57], position := none },
          { bone_name := "rightLowerArm", rotation := [0, 0, -0.5], position := none }],
         false) := by
  rw [generate_wave_eq]
  rfl

/-- C2, counterexample: with finger bones declared, resolving the bone
`rightHand` against an availability set containing it does NOT return
the one-element list `["rightHand"]` — the available finger joint is
appended as well, refuting the claim's "nothing else appended" for
arbitrary capability descriptors. -/
theorem c2_counterexample_hand_augmented :
    _map_bone_with_alternatives "rightHand" ["rightHand", "rightThumb1"] finger_capabilities ≠
      ["rightHand"] := by decide

/-- C2, amended: for every `desired` present in `available`, the
expression resolver returns `desired` unchanged, and the bone resolver
returns a list headed by `desired` with no alternative consulted — equal
to `[desired]` except that for `rightHand`/`leftHand` with
`has_finger_bones` the available finger joints are appended. -/
theorem c2_exact_match_precedence (desired : String) (available : List String)
    (capabilities : VRMCapabilities) (h : available.contains desired = true) :
    _map_expression_with_fallback desired available = some desired ∧
    _map_bone_with_alternatives desired available capabilities =
      desired :: (if (["rightHand", "leftHand"].contains desired) && capabilities.has_finger_bones
        then _get_finger_bones desired available else []) := by
  constructor
  · unfold _map_expression_with_fallback
    rw [h]
    simp
  · simp only [_map_bone_with_alternatives, h, if_true, List.isEmpty_cons, Bool.false_eq_true,
      if_false]
    split <;> simp

/-- C2, witness: the amended statement at a concrete exact match. -/
theorem c2_witness :
    _map_expression_with_fallback "rightHand" ["rightHand", "rightThumb1"] = some "rightHand" ∧
    _map_bone_with_alternatives "rightHand" ["rightHand", "rightThumb1"] finger_capabilities =
      "rightHand" :: (if (["rightHand", "leftHand"].contains "rightHand") && finger_capabilities.has_finger_bones
        then _get_finger_bones "rightHand" ["rightHand", "rightThumb1"] else []) :=
  c2_exact_match_precedence "rightHand" ["rightHand", "rightThumb1"] finger_capabilities (by decide)

/-- `max lo (min hi v)` lies in `[lo, hi]` when `lo ≤ hi`. -/
theorem clamp_bounds (lo hi v : ℚ) (h : lo ≤ hi) :
    lo ≤ max lo (min hi v) ∧ max lo (min hi v) ≤ hi :=
  ⟨le_max_left _ _, max_le h (min_le_left _ _)⟩

/-- C3: `_adapt_rotation_for_bone` scales by intensity and then applies
exactly one clamp category, chosen by case-insensitive substring match
in precedence order finger/thumb, neck, spine: finger/thumb names get
all three components clamped to `[-0.5, 0.5]`; otherwise neck names get
component 0 in `[-0.8, 0.8]` and component 1 in `[-1.2, 1.2]` with
component 2 just scaled; otherwise spine names get component 0 in
`[-1, 1]` with components 1-2 just scaled; all other names are scaled
componentwise with no clamp. -/
theorem c3_adapt_rotation (x y z intensity : ℚ) (bone_name : String)
    (h0 : 0 ≤ intensity) (h1 : intensity ≤ 1) :
    ((strContains (toLowerStr bone_name) "finger" || strContains (toLowerStr bone_name) "thumb") = true →
      (_adapt_rotation_for_bone [x, y, z] bone_name intensity).length = 3 ∧
      ∀ r ∈ _adapt_rotation_for_bone [x, y, z] bone_name intensity, -0.5 ≤ r ∧ r ≤ 0.5) ∧
    ((strContains (toLowerStr bone_name) "finger" || strContains (toLowerStr bone_name) "thumb") = false →
      strContains (toLowerStr bone_name) "neck" = true →
      ∃ a b, _adapt_rotation_for_bone [x, y, z] bone_name intensity = [a, b, z * intensity] ∧
        -0.8 ≤ a ∧ a ≤ 0.8 ∧ -1.2 ≤ b ∧ b ≤ 1.2) ∧
    ((strContains (toLowerStr bone_name) "finger" || strContains (toLowerStr bone_name) "thumb") = false →
      strContains (toLowerStr bone_name) "neck" = false →
      strContains (toLowerStr bone_name) "spine" = true →
      ∃ a, _adapt_rotation_for_bone [x, y, z] bone_name intensity = [a, y * intensity, z * intensity] ∧
        -1 ≤ a ∧ a ≤ 1) ∧
    ((strContains (toLowerStr bone_name) "finger" || strContains (toLowerStr bone_name) "thumb") = false →
      strContains (toLowerStr bone_name) "neck" = false →
      strContains (toLowerStr bone_name) "spine" = false →
      _adapt_rotation_for_bone [x, y, z] bone_name intensity =
        [x * intensity, y * intensity, z * intensity]) := by
  refine ⟨?_, ?_, ?_, ?_⟩
  · intro hf
    simp only [_adapt_rotation_for_bone, hf, if_true, List.map_cons, List.map_nil]
    refine ⟨rfl, ?_⟩
    intro r hr
    rcases List.mem_cons.mp hr with rfl | hr
    · exact clamp_bounds _ _ _ (by norm_num)
    rcases List.mem_cons.mp hr with rfl | hr
    · exact clamp_bounds _ _ _ (by norm_num)
    rcases List.mem_cons.mp hr with rfl | hr
    · exact clamp_bounds _ _ _ (by norm_num)
    · exact absurd hr (List.not_mem_nil _)
  · intro hf hn
    have hadapt : _adapt_rotation_for_bone [x, y, z] bone_name intensity =
        [max (-0.8) (min 0.8 (x * intensity)), max (-1.2) (min 1.2 (y * intensity)),
         z * intensity] := by
      simp only [_adapt_rotation_for_bone, hf, hn, Bool.false_eq_true, if_false, if_true,
        List.map_cons, List.map_nil]
    have hx := clamp_bounds (-0.8) 0.8 (x * intensity) (by norm_num)
    have hy := clamp_bounds (-1.2) 1.2 (y * intensity) (by norm_num)
    exact ⟨_, _, hadapt, hx.1, hx.2, hy.1, hy.2⟩
  · intro hf hn hs
    have hadapt : _adapt_rotation_for_bone [x, y, z] bone_name intensity =
        [max (-1.0) (min 1.0 (x * intensity)), y * intensity, z * intensity] := by
      simp only [_adapt_rotation_for_bone, hf, hn, hs, Bool.false_eq_true, if_false, if_true,
        List.map_cons, List.map_nil]
    have hx := clamp_bounds (-1.0) 1.0 (x * intensity) (by norm_num)
    exact ⟨_, hadapt, le_trans (by norm_num) hx.1, le_trans hx.2 (by norm_num)⟩
  · intro hf hn hs
    simp only [_adapt_rotation_for_bone, hf, hn, hs, Bool.false_eq_true, if_false,
      List.map_cons, List.map_nil]

/-- C3, witness: an unclamped bone name at concrete inputs. -/
theorem c3_witness :
    _adapt_rotation_for_bone [2, 0, 0] "rightUpperArm" 1 = [2 * 1, 0 * 1, 0 * 1] :=
  (c3_adapt_rotation 2 0 0 1 "rightUpperArm" (by norm_num) (by norm_num)).2.2.2
    (by decide) (by decide) (by decide)

/-- The finger enumeration of `rightHand` is the digit-major,
joint-minor name list filtered by availability. -/
theorem getFinger_rightHand (available : List String) :
    _get_finger_bones "rightHand" available =
      ["rightThumb1", "rightThumb2", "rightThumb3",
       "rightIndex1", "rightIndex2", "rightIndex3",
       "rightMiddle1", "rightMiddle2", "rightMiddle3",
       "rightRing1", "rightRing2", "rightRing3",
       "rightLittle1", "rightLittle2", "rightLittle3"].filter
        (fun bone => available.contains bone) := by
  have h1 : _get_finger_bones "rightHand" available =
      ["Thumb", "Index", "Middle", "Ring", "Little"].flatMap (fun finger =>
        ([1, 2, 3] : List Nat).flatMap (fun i =>
          if available.contains ("right" ++ finger ++ toString i) then
            ["right" ++ finger ++ toString i] else [])) := rfl
  have h2 : ∀ finger : String, (([1, 2, 3] : List Nat).flatMap (fun i =>
      if available.contains ("right" ++ finger ++ toString i) then
        ["right" ++ finger ++ toString i] else [])) =
      (([1, 2, 3] : List Nat).map (fun i => "right" ++ finger ++ toString i)).filter
        (fun bone => available.contains bone) :=
    fun finger => flatMap_if_singleton_eq_filter_map _ _ _
  rw [h1]
  simp only [h2]
  rw [← filter_flatMap_comm]
  congr 1

/-- The finger enumeration of `leftHand` is the digit-major,
joint-minor name list filtered by availability. -/
theorem getFinger_leftHand (available : List String) :
    _get_finger_bones "leftHand" available =
      ["leftThumb1", "leftThumb2", "leftThumb3",
       "leftIndex1", "leftIndex2", "leftIndex3",
       "leftMiddle1", "leftMiddle2", "leftMiddle3",
       "leftRing1", "leftRing2", "leftRing3",
       "leftLittle1", "leftLittle2", "leftLittle3"].filter
        (fun bone => available.contains bone) := by
  have h1 : _get_finger_bones "leftHand" available =
      ["Thumb", "Index", "Middle", "Ring", "Little"].flatMap (fun finger =>
        ([1, 2, 3] : List Nat).flatMap (fun i =>
          if available.contains ("left" ++ finger ++ toString i) then
            ["left" ++ finger ++ toString i] else [])) := rfl
  have h2 : ∀ finger : String, (([1, 2, 3] : List Nat).flatMap (fun i =>
      if available.contains ("left" ++ finger ++ toString i) then
        ["left" ++ finger ++ toString i] else [])) =
      (([1, 2, 3] : List Nat).map (fun i => "left" ++ finger ++ toString i)).filter
        (fun bone => available.contains bone) :=
    fun finger => flatMap_if_singleton_eq_filter_map _ _ _
  rw [h1]
  simp only [h2]
  rw [← filter_flatMap_comm]
  congr 1

/-- C4: when the desired bone is `rightHand` or `leftHand` and
`has_finger_bones` holds, the bone resolver's result is the exact-match
or first-alternative primary result followed by every available
`{side}{Digit}{index}` bone in digit-major then joint-minor order,
regardless of whether a primary was found; in particular resolving
`rightHand` against `{rightHand, rightThumb1, rightIndex1}` gives
`[rightHand, rightThumb1, rightIndex1]`. -/
theorem c4_hand_finger_augmentation :
    (∀ (available : List String) (capabilities : VRMCapabilities) (target : String),
        capabilities.has_finger_bones = true →
        target = "rightHand" ∨ target = "leftHand" →
        _map_bone_with_alternatives target available capabilities =
          (if available.contains target then [target]
           else ((bone_alternatives target).find? (fun alt_bone => available.contains alt_bone)).toList) ++
          _get_finger_bones target available) ∧
    (∀ available : List String, _get_finger_bones "rightHand" available =
      ["rightThumb1", "rightThumb2", "rightThumb3",
       "rightIndex1", "rightIndex2", "rightIndex3",
       "rightMiddle1", "rightMiddle2", "rightMiddle3",
       "rightRing1", "rightRing2", "rightRing3",
       "rightLittle1", "rightLittle2", "rightLittle3"].filter
        (fun bone => available.contains bone)) ∧
    (∀ available : List String, _get_finger_bones "leftHand" available =
      ["leftThumb1", "leftThumb2", "leftThumb3",
       "leftIndex1", "leftIndex2", "leftIndex3",
       "leftMiddle1", "leftMiddle2", "leftMiddle3",
       "leftRing1", "leftRing2", "leftRing3",
       "leftLittle1", "leftLittle2", "leftLittle3"].filter
        (fun bone => available.contains bone)) ∧
    _map_bone_with_alternatives "rightHand" ["rightHand", "rightThumb1", "rightIndex1"]
      { expressions := [], bones := ["rightHand", "rightThumb1", "rightIndex1"],
        has_finger_bones := true, has_toe_bones := false, has_spring_bones := true } =
      ["rightHand", "rightThumb1", "rightIndex1"] := by
  refine ⟨?_, getFinger_rightHand, getFinger_leftHand, by decide⟩
  intro available capabilities target hfb ht
  have hmem : (["rightHand", "leftHand"].contains target) = true := by
    rcases ht with rfl | rfl <;> decide
  simp only [_map_bone_with_alternatives, hmem, hfb, Bool.and_self, if_true]
  cases hc : available.contains target with
  | true => simp [hc]
  | false =>
    simp only [hc, Bool.false_eq_true, if_false, List.isEmpty_nil, if_true]
    cases hfind : (bone_alternatives target).find? (fun alt_bone => available.contains alt_bone) <;>
      simp [hfind, Option.toList]

/-- C4, witness: the decomposition at a hand bone with no primary
match. -/
theorem c4_witness :
    _map_bone_with_alternatives "rightHand" ["rightThumb1"]
      { expressions := [], bones := [], has_finger_bones := true, has_toe_bones := false,
        has_spring_bones := true } =
      (if List.contains ["rightThumb1"] "rightHand" then ["rightHand"]
       else ((bone_alternatives "rightHand").find?
         (fun alt_bone => List.contains ["rightThumb1"] alt_bone)).toList) ++
      _get_finger_bones "rightHand" ["rightThumb1"] :=
  c4_hand_finger_augmentation.1 ["rightThumb1"]
    { expressions := [], bones := [], has_finger_bones := true, has_toe_bones := false,
      has_spring_bones := true } "rightHand" rfl (Or.inl rfl)

/-- The fallback synthesis of the templateless `dance` test vector. -/
theorem dance_fallback_transforms :
    _generate_fallback_action dance_request standard_capabilities =
      [{ bone_name := "spine", rotation := [0, 0.15, 0], position := none },
       { bone_name := "rightUpperArm", rotation := [0, 0, 0.5], position := none },
       { bone_name := "leftUpperArm", rotation := [0, 0, -0.5], position := none }] := by
  have hw : strContains (toLowerStr dance_request.action_type) "wave" = false := by decide
  have hh : strContains (toLowerStr dance_request.action_type) "hello" = false := by decide
  have hd : strContains (toLowerStr dance_request.action_type) "dance" = true := by decide
  have hspine : standard_capabilities.bones.contains "spine" = true := by decide
  have hright : standard_capabilities.bones.contains "rightUpperArm" = true := by decide
  have hleft : standard_capabilities.bones.contains "leftUpperArm" = true := by decide
  have hsr : strContains "rightUpperArm" "right" = true := by decide
  have hsl : strContains "leftUpperArm" "right" = false := by decide
  have hint : dance_request.intensity = 0.5 := rfl
  simp only [_generate_fallback_action, hw, hh, hd, hspine, hright, hleft, hsr, hsl, hint,
    Bool.or_false, Bool.true_or, Bool.false_eq_true, if_false, if_true,
    List.flatMap_cons, List.flatMap_nil, List.append_nil]
  norm_num

/-- The bone loop of the templateless `dance` test vector. -/
theorem dance_bone_transforms :
    _assemble_bone_transforms dance_request standard_capabilities =
      [{ bone_name := "spine", rotation := [0, 0.15, 0], position := none },
       { bone_name := "rightUpperArm", rotation := [0, 0, 0.5], position := none },
       { bone_name := "leftUpperArm", rotation := [0, 0, -0.5], position := none }] := by
  have ht : ACTION_TEMPLATES dance_request.action_type = none := rfl
  simp only [_assemble_bone_transforms, ht, Option.getD_none, Option.isNone_none,
    List.flatMap_nil, if_true, List.nil_append, dance_fallback_transforms]

/-- C5: composing `unknown_action_xyz_dance` at intensity 0.5 with the
standard capability set finds no template, so expressions are empty and
the bone transforms are the fallback synthesizer's dance/move branch:
`spine [0, 0.15, 0]`, then `rightUpperArm [0, 0, 0.5]`, then
`leftUpperArm [0, 0, -0.5]`. -/
theorem c5_compose_unknown_dance :
    (generate_vrm_action dance_request).map (fun a => (a.expressions, a.bone_transforms)) =
    .ok ([],
         [{ bone_name := "spine", rotation := [0, 0.15, 0], position := none },
          { bone_name := "rightUpperArm", rotation := [0, 0, 0.5], position := none },
          { bone_name := "leftUpperArm", rotation := [0, 0, -0.5], position := none }]) := by
  rw [generate_eq_of_build dance_request standard_capabilities rfl [] rfl]
  simp only [Except.map, dance_bone_transforms]

/-- C6: `generate_vrm_action` fails with the missing-capabilities error
exactly when the request carries no capability descriptor; every request
with a descriptor and an intensity in `[0, 1]` yields an action, for any
action type. -/
theorem c6_missing_capabilities (request : ActionRequest)
    (h0 : 0 ≤ request.intensity) (h1 : request.intensity ≤ 1) :
    (generate_vrm_action request = .error .missingCapabilities ↔
      request.model_capabilities = none) ∧
    (∀ capabilities, request.model_capabilities = some capabilities →
      ∃ action, generate_vrm_action request = .ok action) := by
  constructor
  · constructor
    · intro h
      cases hc : request.model_capabilities with
      | none => rfl
      | some capabilities =>
        obtain ⟨action, ha, -, -⟩ := generate_ok_of_capabilities request capabilities hc h0 h1
        rw [ha] at h
        exact absurd h (by simp)
    · intro hc
      simp [generate_vrm_action, hc]
  · intro capabilities hc
    obtain ⟨action, ha, -, -⟩ := generate_ok_of_capabilities request capabilities hc h0 h1
    exact ⟨action, ha⟩

/-- C6, witness: a request without a descriptor fails. -/
theorem c6_witness :
    generate_vrm_action no_caps_request = .error .missingCapabilities :=
  (c6_missing_capabilities no_caps_request (by norm_num [no_caps_request])
    (by norm_num [no_caps_request])).1.mpr rfl

/-- C7: every descriptor `get_model_capabilities` returns has
`has_spring_bones = true`, `has_finger_bones` true iff `leftThumb1` or
`rightThumb1` is among its bones, `has_toe_bones` true iff `leftToes` or
`rightToes` is among its bones; an omitted argument yields the fixed
standard set of 18 expression names resp. 19 bone names. -/
theorem c7_capability_flags (expressions bones : Option (List String)) :
    (get_model_capabilities expressions bones).has_spring_bones = true ∧
    ((get_model_capabilities expressions bones).has_finger_bones = true ↔
      "leftThumb1" ∈ (get_model_capabilities expressions bones).bones ∨
      "rightThumb1" ∈ (get_model_capabilities expressions bones).bones) ∧
    ((get_model_capabilities expressions bones).has_toe_bones = true ↔
      "leftToes" ∈ (get_model_capabilities expressions bones).bones ∨
      "rightToes" ∈ (get_model_capabilities expressions bones).bones) ∧
    (expressions = none →
      (get_model_capabilities expressions bones).expressions = STANDARD_EXPRESSIONS ∧
      STANDARD_EXPRESSIONS.length = 18) ∧
    (bones = none →
      (get_model_capabilities expressions bones).bones = STANDARD_BONES ∧
      STANDARD_BONES.length = 19) := by
  refine ⟨rfl, ?_, ?_, ?_, ?_⟩
  · simp [get_model_capabilities, List.contains, List.elem_iff]
  · simp [get_model_capabilities, List.contains, List.elem_iff]
  · intro h
    subst h
    exact ⟨rfl, rfl⟩
  · intro h
    subst h
    exact ⟨rfl, rfl⟩

/-- C7, witness: the omitted-argument default. -/
theorem c7_witness :
    (get_model_capabilities none none).expressions = STANDARD_EXPRESSIONS ∧
    STANDARD_EXPRESSIONS.length = 18 :=
  (c7_capability_flags none none).2.2.2.1 rfl

/-- C8: every expression entry of a generated action has a value in
`[0, 1]`, for any action type, intensity in `[0, 1]`, and capability
descriptor. -/
theorem c8_expression_values_in_range (request : ActionRequest) (action : VRMAction)
    (h0 : 0 ≤ request.intensity) (h1 : request.intensity ≤ 1)
    (h : generate_vrm_action request = .ok action) :
    ∀ e ∈ action.expressions, 0 ≤ e.value ∧ e.value ≤ 1 := by
  obtain ⟨capabilities, res, hc, hres, hexpr, -, -, -⟩ := generate_ok_inversion request action h
  rw [hexpr]
  exact build_expressions_values _ _ _ _ hres

/-- C8, witness: the single expression of the `wave_hello` action is in
range. -/
theorem c8_witness :
    0 ≤ ({ name := "happy", value := 0.7 } : ExpressionData).value ∧
    ({ name := "happy", value := 0.7 } : ExpressionData).value ≤ 1 :=
  c8_expression_values_in_range wave_request wave_action (by norm_num [wave_request])
    (by norm_num [wave_request]) generate_wave_eq { name := "happy", value := 0.7 }
    (List.mem_cons_self _ _)

/-- C9: a generated action loops exactly when the action type is
`dance_basic` or `idle_animation`; composing `idle_animation` (which has
no template and no fallback keyword) with any capability descriptor
yields a looping action with empty expressions and empty bone
transforms. -/
theorem c9_loop_flag :
    (∀ (request : ActionRequest) (action : VRMAction), generate_vrm_action request = .ok action →
      (action.loop = true ↔
        request.action_type = "dance_basic" ∨ request.action_type = "idle_animation")) ∧
    (∀ (capabilities : VRMCapabilities) (intensity duration : ℚ),
      ∃ action, generate_vrm_action { action_type := "idle_animation", intensity := intensity, duration := duration, model_capabilities := some capabilities } = .ok action ∧
        action.loop = true ∧ action.expressions = [] ∧ action.bone_transforms = []) := by
  constructor
  · intro request action h
    obtain ⟨capabilities, res, hc, hres, -, -, -, hloop⟩ := generate_ok_inversion request action h
    rw [hloop, List.elem_iff]
    simp
  · intro capabilities intensity duration
    exact ⟨_, rfl, rfl, rfl, rfl⟩

/-- C9, witness: the loop flag of the generated `wave_hello` action. -/
theorem c9_witness :
    wave_action.loop = true ↔
      wave_request.action_type = "dance_basic" ∨ wave_request.action_type = "idle_animation" :=
  c9_loop_flag.1 wave_request wave_action generate_wave_eq

/-- C10: a sequence request without a capability descriptor fails with
the missing-capabilities error on its first entry (no sequence is
returned); with a descriptor, the whole sequence is produced and every
generated action carries the fixed default duration of 2 seconds. -/
theorem c10_sequence_missing_and_duration (action_names : List String) :
    (action_names ≠ [] → get_action_sequence action_names none = .error .missingCapabilities) ∧
    (∀ capabilities : VRMCapabilities, ∃ sequence,
      get_action_sequence action_names (some capabilities) = .ok sequence ∧
      ∀ action ∈ sequence, action.duration = 2) := by
  constructor
  · intro h
    cases action_names with
    | nil => exact absurd rfl h
    | cons hd tl => rfl
  · intro capabilities
    induction action_names with
    | nil => exact ⟨[], rfl, by simp⟩
    | cons hd tl ih =>
      obtain ⟨sequence, hseq, hdur⟩ := ih
      obtain ⟨action, ha, hadur, -⟩ := generate_ok_of_capabilities
        { action_type := hd, intensity := 0.7, model_capabilities := some capabilities }
        capabilities rfl (by norm_num) (by norm_num)
      refine ⟨action :: sequence, ?_, ?_⟩
      · simp only [get_action_sequence, ha, hseq]
      · intro a hmem
        rcases List.mem_cons.mp hmem with rfl | hmem
        · rw [hadur]; norm_num
        · exact hdur a hmem

/-- C10, witness: a one-element sequence without a descriptor fails. -/
theorem c10_witness :
    get_action_sequence ["wave_hello"] none = .error .missingCapabilities :=
  (c10_sequence_missing_and_duration ["wave_hello"]).1 (by simp)
